import Mathlib

/-
Verification of the inventory_sync repository's reservation engine,
distributed lock, cache and reconciler against its specification.

The definitions below are a shallow embedding of the Python source:

* `inventory/models.py`   : `InventoryStock` rows, the overridden
  `InventoryStock.save` (lines 71-74) with Django's `update_fields`
  semantics, and `StockTransaction` records.
* `inventory/services.py` : `InventoryService.get_available_stock`,
  `reserve_stock`, `release_stock`, `update_stock`.
* `sync_engine/tasks.py`  : `reconcile_inventory` (lines 322-374).
* `sync_engine/distributed_lock.py` : `DistributedLock.acquire`
  (lines 106-148), with the per-round lock-server outcomes and the
  measured wall time supplied by an environment, and wall-clock
  quantities modelled exactly over the rationals.

Timestamps (`updated_at`, `last_sync_at`, `created_at`) and log/metric
side effects are not modelled; no claim depends on them.  Database
transactions (`transaction.atomic`) are modelled by the functions being
pure: a completed call returns the whole post-commit state, an
exceptional exit returns `none` and leaves no partial state.
-/

namespace InventorySync

/-- The numeric columns of `InventoryStock` that the embedding tracks.
`updated_at` / `last_sync_at` (timestamps) are omitted. -/
inductive StockField
  | quantity
  | reserved_quantity
  | available_quantity
  | version
deriving DecidableEq, Repr

/-- A persisted `InventoryStock` row (models.py lines 47-74).
Columns are Django `IntegerField`s, hence `Int`. -/
structure Stock where
  product_id : Nat
  warehouse_id : Nat
  quantity : Int
  reserved_quantity : Int
  available_quantity : Int
  version : Int
deriving DecidableEq, Repr

def Stock.getField (s : Stock) : StockField → Int
  | .quantity => s.quantity
  | .reserved_quantity => s.reserved_quantity
  | .available_quantity => s.available_quantity
  | .version => s.version

def Stock.setField (s : Stock) : StockField → Int → Stock
  | .quantity, v => { s with quantity := v }
  | .reserved_quantity, v => { s with reserved_quantity := v }
  | .available_quantity, v => { s with available_quantity := v }
  | .version, v => { s with version := v }

/-- `InventoryStock.save` (models.py lines 71-74) combined with Django's
`update_fields` semantics.  The overridden method first recomputes
`available_quantity = quantity - reserved_quantity` and bumps `version`
in memory; `super().save(update_fields=...)` then persists only the
listed fields on top of the current database row `db` (`none` means a
full save persisting every field). -/
def stockSave (row : Stock) (update_fields : Option (List StockField)) (db : Stock) : Stock :=
  let m : Stock :=
    { row with
      available_quantity := row.quantity - row.reserved_quantity,
      version := row.version + 1 }
  match update_fields with
  | none => m
  | some fs => fs.foldl (fun acc f => acc.setField f (m.getField f)) db

/-- `StockTransaction.TRANSACTION_TYPES` (models.py lines 79-86). -/
inductive TxnType
  | IN
  | OUT
  | RESERVE
  | RELEASE
  | ADJUST
  | SYNC
deriving DecidableEq, Repr

/-- A `StockTransaction` record (models.py lines 77-94); the foreign key
to the stock row is modelled by the row's `(product_id, warehouse_id)`
pair.  `notes`, `created_by` and `created_at` are omitted. -/
structure Txn where
  stock_product_id : Nat
  stock_warehouse_id : Nat
  transaction_type : TxnType
  quantity : Int
  reference_id : String
deriving DecidableEq, Repr

/-- The dictionary returned by `get_available_stock` (services.py lines
45-76).  `warehouse_id = none` is the aggregate case, whose dict also
carries the per-warehouse breakdown `(warehouse_id, available,
reserved, total)`. -/
structure Snapshot where
  product_id : Nat
  warehouse_id : Option Nat
  available : Int
  reserved : Int
  total : Int
  warehouses : List (Nat × Int × Int × Int)
deriving DecidableEq, Repr

/-- One live Django-cache entry: key, value and TTL seconds. -/
structure CacheEntry where
  key : String
  value : Snapshot
  timeout : Nat
deriving DecidableEq, Repr

/-- The state touched by the inventory service: the stock table, the
append-only transaction log (in creation order), and the cache. -/
structure InventoryDB where
  stocks : List Stock
  txns : List Txn
  cache : List CacheEntry
deriving DecidableEq, Repr

/-- Cache key `f"stock:{product_id}:{warehouse_id}"`. -/
def cacheKeySpecific (product_id warehouse_id : Nat) : String :=
  s!"stock:{product_id}:{warehouse_id}"

/-- Cache key `f"stock:{product_id}:all"`. -/
def cacheKeyAggregate (product_id : Nat) : String :=
  s!"stock:{product_id}:all"

def cacheGet (c : List CacheEntry) (k : String) : Option Snapshot :=
  (c.find? (fun e => e.key == k)).map (fun e => e.value)

def cacheSet (c : List CacheEntry) (k : String) (v : Snapshot) (t : Nat) : List CacheEntry :=
  ⟨k, v, t⟩ :: c.filter (fun e => e.key != k)

def cacheDelete (c : List CacheEntry) (k : String) : List CacheEntry :=
  c.filter (fun e => e.key != k)

/-- `InventoryStock.objects.get(product_id=..., warehouse_id=...)`;
`(product, warehouse)` is unique, so `find?` returns the row. -/
def findStock (stocks : List Stock) (product_id warehouse_id : Nat) : Option Stock :=
  stocks.find? (fun s => s.product_id == product_id && s.warehouse_id == warehouse_id)

/-- Persisting a mutated row back into the table, keyed by the unique
`(product, warehouse)` pair. -/
def replaceStock (stocks : List Stock) (product_id warehouse_id : Nat) (r : Stock) : List Stock :=
  stocks.map (fun s =>
    if s.product_id == product_id && s.warehouse_id == warehouse_id then r else s)

/-- `InventoryService.get_available_stock` (services.py lines 22-79).
`warehouse_id or 'all'` and `if warehouse_id:` use Python truthiness,
so `warehouse_id = 0` behaves like `None`; both select the aggregate
branch.  Returns the post-call state and the returned dict. -/
def get_available_stock (db : InventoryDB) (product_id : Nat) (warehouse_id : Option Nat) :
    InventoryDB × Snapshot :=
  let truthyWid : Option Nat :=
    match warehouse_id with
    | some w => if w = 0 then none else some w
    | none => none
  match truthyWid with
  | some w =>
    let key := cacheKeySpecific product_id w
    match cacheGet db.cache key with
    | some snap => (db, snap)
    | none =>
      let snap : Snapshot :=
        match findStock db.stocks product_id w with
        | some s => ⟨product_id, some w, s.available_quantity, s.reserved_quantity, s.quantity, []⟩
        | none => ⟨product_id, some w, 0, 0, 0, []⟩
      ({ db with cache := cacheSet db.cache key snap 60 }, snap)
  | none =>
    let key := cacheKeyAggregate product_id
    match cacheGet db.cache key with
    | some snap => (db, snap)
    | none =>
      let ss := db.stocks.filter (fun s => s.product_id == product_id)
      let snap : Snapshot :=
        ⟨product_id, none,
          (ss.map (fun s => s.available_quantity)).sum,
          (ss.map (fun s => s.reserved_quantity)).sum,
          (ss.map (fun s => s.quantity)).sum,
          ss.map (fun s => (s.warehouse_id, s.available_quantity, s.reserved_quantity, s.quantity))⟩
      ({ db with cache := cacheSet db.cache key snap 60 }, snap)

/-- `InventoryService.reserve_stock` (services.py lines 81-136).
`DoesNotExist` is caught and yields `False` with no state change.
On success the row is saved with
`update_fields=['reserved_quantity', 'updated_at']`, a RESERVE
transaction is created, and the warehouse-specific cache key is
deleted, all inside one atomic transaction. -/
def reserve_stock (db : InventoryDB) (product_id warehouse_id : Nat) (quantity : Int)
    (order_id : String) : InventoryDB × Bool :=
  match findStock db.stocks product_id warehouse_id with
  | none => (db, false)
  | some stock =>
    if stock.available_quantity < quantity then
      (db, false)
    else
      let saved := stockSave
        { stock with reserved_quantity := stock.reserved_quantity + quantity }
        (some [StockField.reserved_quantity]) stock
      ({ stocks := replaceStock db.stocks product_id warehouse_id saved,
         txns := db.txns ++ [⟨product_id, warehouse_id, TxnType.RESERVE, quantity, order_id⟩],
         cache := cacheDelete db.cache (cacheKeySpecific product_id warehouse_id) }, true)

/-- `InventoryService.release_stock` (services.py lines 138-186).
Unlike `reserve_stock`, a missing row is re-raised (`none`): the atomic
block rolls back and no state changes.  On success the row is saved
with `update_fields=['reserved_quantity', 'updated_at']`, a RELEASE
transaction is created, and the warehouse-specific cache key deleted. -/
def release_stock (db : InventoryDB) (product_id warehouse_id : Nat) (quantity : Int)
    (order_id : String) : Option (InventoryDB × Bool) :=
  match findStock db.stocks product_id warehouse_id with
  | none => none
  | some stock =>
    if stock.reserved_quantity < quantity then
      some (db, false)
    else
      let saved := stockSave
        { stock with reserved_quantity := stock.reserved_quantity - quantity }
        (some [StockField.reserved_quantity]) stock
      some ({ stocks := replaceStock db.stocks product_id warehouse_id saved,
              txns := db.txns ++ [⟨product_id, warehouse_id, TxnType.RELEASE, quantity, order_id⟩],
              cache := cacheDelete db.cache (cacheKeySpecific product_id warehouse_id) }, true)

/-- The tail of `InventoryService.update_stock` after `get_or_create`
(services.py lines 213-237): the negative-stock check, the save with
`update_fields=['quantity', 'updated_at']`, the transaction append and
the cache delete.  `stocks0` is the stock table after `get_or_create`
and `stock` the row it returned. -/
def updateStockApply (db : InventoryDB) (product_id warehouse_id : Nat) (quantity : Int)
    (transaction_type : TxnType) (reference_id : String) (stocks0 : List Stock)
    (stock : Stock) : InventoryDB × Bool :=
  let new_quantity := stock.quantity + quantity
  if new_quantity < 0 then
    ({ db with stocks := stocks0 }, false)
  else
    let saved := stockSave { stock with quantity := new_quantity }
      (some [StockField.quantity]) stock
    ({ stocks := replaceStock stocks0 product_id warehouse_id saved,
       txns := db.txns ++ [⟨product_id, warehouse_id, transaction_type, quantity, reference_id⟩],
       cache := cacheDelete db.cache (cacheKeySpecific product_id warehouse_id) }, true)

/-- `InventoryService.update_stock` (services.py lines 188-241).
`get_or_create` creates a zeroed row when absent (a full
`InventoryStock.save`, so the fresh row has `available_quantity = 0`
and `version = 1`); that creation persists even when the negative-stock
check then returns `False`, since returning is not an exception. -/
def update_stock (db : InventoryDB) (product_id warehouse_id : Nat) (quantity : Int)
    (transaction_type : TxnType) (reference_id : String) : InventoryDB × Bool :=
  let zeroRow : Stock := ⟨product_id, warehouse_id, 0, 0, 0, 0⟩
  let created := stockSave zeroRow none zeroRow
  match findStock db.stocks product_id warehouse_id with
  | some s =>
    updateStockApply db product_id warehouse_id quantity transaction_type reference_id
      db.stocks s
  | none =>
    updateStockApply db product_id warehouse_id quantity transaction_type reference_id
      (db.stocks ++ [created]) created

/-- A sequence of `reserve_stock` calls run back to back on the same
row.  Under the product lock and `select_for_update`, any set of
concurrent reservations on one `(product, warehouse)` row executes as
such a serialized sequence; the returned flags are the per-call
results in commit order. -/
def runReserves (db : InventoryDB) (product_id warehouse_id : Nat) :
    List (Int × String) → InventoryDB × List Bool
  | [] => (db, [])
  | (q, oid) :: rest =>
    let r := reserve_stock db product_id warehouse_id q oid
    let tailRun := runReserves r.fst product_id warehouse_id rest
    (tailRun.fst, r.snd :: tailRun.snd)

/-- One entry of `reconcile_inventory`'s `discrepancies` list
(tasks.py lines 347-354), keyed here by ids instead of sku/code. -/
structure Discrepancy where
  product_id : Nat
  warehouse_id : Nat
  system_available : Int
  calculated_available : Int
  difference : Int
deriving DecidableEq, Repr

/-- The dict returned by `reconcile_inventory` (tasks.py lines 365-370),
minus the constant `status` field. -/
structure ReconcileResult where
  reconciled_count : Nat
  discrepancies : List Discrepancy
  total_checked : Nat
deriving DecidableEq, Repr

/-- Row filter of `reconcile_inventory`: all rows, or one warehouse. -/
def inScope (warehouse_id : Option Nat) (s : Stock) : Bool :=
  match warehouse_id with
  | some w => s.warehouse_id == w
  | none => true

/-- `stock.available_quantity != stock.quantity - stock.reserved_quantity`
(tasks.py lines 344-346). -/
def stockDiscrepant (s : Stock) : Bool :=
  s.available_quantity != s.quantity - s.reserved_quantity

/-- The reconciler's per-row repair (tasks.py lines 356-358):
`stock.available_quantity = expected_available` followed by
`stock.save(update_fields=['available_quantity'])`. -/
def reconcileRow (s : Stock) : Stock :=
  stockSave { s with available_quantity := s.quantity - s.reserved_quantity }
    (some [StockField.available_quantity]) s

def mkDiscrepancy (s : Stock) : Discrepancy :=
  ⟨s.product_id, s.warehouse_id, s.available_quantity,
    s.quantity - s.reserved_quantity,
    s.available_quantity - (s.quantity - s.reserved_quantity)⟩

/-- The accumulation of the reconciler's `for stock in stocks:` loop
over the scoped rows: discrepancy count and discrepancy records, in
iteration order. -/
def reconcileLoop : List Stock → Nat × List Discrepancy
  | [] => (0, [])
  | s :: rest =>
    let r := reconcileLoop rest
    if stockDiscrepant s then (r.fst + 1, mkDiscrepancy s :: r.snd) else r

/-- `reconcile_inventory` (tasks.py lines 322-374).  Each discrepant row
in scope is repaired in place by `reconcileRow`; nothing else of the
state is touched, and the result dict reports the counts and the
discrepancy list. -/
def reconcile_inventory (db : InventoryDB) (warehouse_id : Option Nat) :
    InventoryDB × ReconcileResult :=
  let rows := db.stocks.filter (inScope warehouse_id)
  let r := reconcileLoop rows
  ({ db with stocks := db.stocks.map (fun s =>
      if inScope warehouse_id s && stockDiscrepant s then reconcileRow s else s) },
   ⟨r.fst, r.snd, rows.length⟩)

/-- Configuration of `DistributedLock.__init__` (distributed_lock.py
lines 23-41): lease `ttl` in seconds, `retry_times`, `retry_delay` in
seconds, and the number `servers = len(self.redis_clients)` of lock
servers. -/
structure LockConfig where
  ttl : ℚ
  retry_times : Nat
  retry_delay : ℚ
  servers : Nat
deriving DecidableEq, Repr

/-- The environment of one acquisition round: the outcome of
`SET resource lock_id NX PX(ttl*1000)` on each of the lock servers in
order, and the measured wall time `time.time() - start_time` of the
round, in seconds. -/
structure LockRound where
  responses : List Bool
  elapsed : ℚ
deriving DecidableEq, Repr

/-- `acquired_count` of a round (distributed_lock.py lines 114-121). -/
def countAcquired (rs : List Bool) : Nat :=
  (rs.filter (fun b => b)).length

/-- `self.acquired_locks` of a round: the indices of the servers whose
`SET NX` succeeded. -/
def acquiredServers (rs : List Bool) : List Nat :=
  (List.range rs.length).filter (fun i => rs.getD i false)

/-- `self.quorum = len(self.redis_clients) // 2 + 1` (line 39). -/
def quorum (n : Nat) : Nat := n / 2 + 1

/-- `drift = (self.ttl * self.clock_drift_factor) + 0.002` with
`clock_drift_factor = 0.01` (lines 40, 126), exactly over ℚ. -/
def clockDrift (ttl : ℚ) : ℚ := ttl * (1 / 100) + 1 / 500

/-- `validity_time = self.ttl - elapsed_time - drift` (line 127). -/
def validityTime (ttl elapsed : ℚ) : ℚ := ttl - elapsed - clockDrift ttl

/-- The grant test of one round (line 130):
`acquired_count >= self.quorum and validity_time > 0`. -/
def roundGranted (cfg : LockConfig) (r : LockRound) : Bool :=
  decide (quorum cfg.servers ≤ countAcquired r.responses) &&
    decide (0 < validityTime cfg.ttl r.elapsed)

/-- The observable record of one loop iteration of `acquire`: which
servers this round's `SET` succeeded on, whether the round granted the
lock, which servers were released afterwards (`_release_all_locks`,
empty on grant), and the back-off slept before the next attempt
(`none` on grant and after the final attempt). -/
structure AttemptLog where
  acquired : List Nat
  granted : Bool
  released : List Nat
  slept : Option ℚ
deriving DecidableEq, Repr

/-- The `for attempt in range(self.retry_times):` loop of
`DistributedLock.acquire` (lines 113-142), consuming one environment
round per attempt and stopping at the first granted round.  Returns
the overall result together with the per-attempt logs. -/
def acquireRun (cfg : LockConfig) : List LockRound → Bool × List AttemptLog
  | [] => (false, [])
  | r :: rest =>
    let acq := acquiredServers r.responses
    if roundGranted cfg r then
      (true, [⟨acq, true, [], none⟩])
    else
      let slept : Option ℚ := if rest.isEmpty then none else some cfg.retry_delay
      let tail := acquireRun cfg rest
      (tail.fst, ⟨acq, false, acq, slept⟩ :: tail.snd)

/-- `DistributedLock.acquire` (lines 106-142): runs at most
`retry_times` rounds against the environment. -/
def acquire (cfg : LockConfig) (env : List LockRound) : Bool × List AttemptLog :=
  acquireRun cfg (env.take cfg.retry_times)

/-- The stock-row part of the spec's universal invariant:
`available = quantity - reserved` and `quantity ≥ reserved ≥ 0`. -/
def stockConsistent (s : Stock) : Prop :=
  s.available_quantity = s.quantity - s.reserved_quantity ∧
    0 ≤ s.reserved_quantity ∧ s.reserved_quantity ≤ s.quantity

instance : DecidablePred stockConsistent := fun s => by
  unfold stockConsistent
  infer_instance

/-- C1: the spec claims `available = quantity − reserved` and
`quantity ≥ reserved ≥ 0` hold for every persisted stock row after any
completed mutation, and that every reservation-engine operation
preserves this.  The code violates it: `reserve_stock` saves with
`update_fields=['reserved_quantity', 'updated_at']`, so the
recomputation of `available_quantity` inside `InventoryStock.save`
(models.py line 72) is never persisted.  Starting from the fully
consistent row `(quantity 10, reserved 0, available 10)`, a completed
`reserve_stock` of 3 leaves the persisted row at
`(10, 3, available 10)`, which breaks the invariant. -/
theorem reserve_breaks_available_invariant :
    (∀ s ∈ ([⟨1, 1, 10, 0, 10, 0⟩] : List Stock), stockConsistent s) ∧
    (reserve_stock ⟨[⟨1, 1, 10, 0, 10, 0⟩], [], []⟩ 1 1 3 "ord-A").snd = true ∧
    ¬ (∀ s ∈ (reserve_stock ⟨[⟨1, 1, 10, 0, 10, 0⟩], [], []⟩ 1 1 3 "ord-A").fst.stocks,
        stockConsistent s) := by
  decide

/-- C2: the spec claims every successful persisted mutation increments
`version` by exactly 1.  The code never persists the bump:
`InventoryStock.save` increments `self.version` (models.py line 73),
but all three mutators pass `update_fields` lists that exclude
`version`, so the stored value is unchanged.  Here a successful
reserve, release and adjust each leave `version` at 5 where the claim
demands 6. -/
theorem mutations_never_bump_version :
    (reserve_stock ⟨[⟨1, 1, 10, 0, 10, 5⟩], [], []⟩ 1 1 3 "o1" =
      (⟨[⟨1, 1, 10, 3, 10, 5⟩], [⟨1, 1, TxnType.RESERVE, 3, "o1"⟩], []⟩, true)) ∧
    (release_stock ⟨[⟨1, 1, 10, 4, 6, 5⟩], [], []⟩ 1 1 2 "o2" =
      some (⟨[⟨1, 1, 10, 2, 6, 5⟩], [⟨1, 1, TxnType.RELEASE, 2, "o2"⟩], []⟩, true)) ∧
    (update_stock ⟨[⟨1, 1, 10, 4, 6, 5⟩], [], []⟩ 1 1 7 TxnType.ADJUST "o3" =
      (⟨[⟨1, 1, 17, 4, 6, 5⟩], [⟨1, 1, TxnType.ADJUST, 7, "o3"⟩], []⟩, true)) ∧
    ¬ ((5 : Int) = 5 + 1) := by
  decide

/-- C3: the spec claims that for an initial `available = A` and K
concurrent `reserve(q_i)` calls, the quantities of the `Ok` calls sum
to at most A and every other call gets `Insufficient`.  Under the
product lock and `select_for_update` the K calls execute as a
serialized sequence, which is therefore also a legal concurrent
schedule.  Because `reserve_stock` never persists the recomputed
`available_quantity`, the second call still sees the stale
`available = 10`: from `A = 10`, two serialized `reserve(10)` calls
both return `Ok`, committing 20 > 10 units and driving
`reserved = 20` past `quantity = 10`. -/
theorem serialized_reserves_overcommit :
    (runReserves ⟨[⟨1, 1, 10, 0, 10, 0⟩], [], []⟩ 1 1 [(10, "a"), (10, "b")]).snd =
      [true, true] ∧
    findStock (runReserves ⟨[⟨1, 1, 10, 0, 10, 0⟩], [], []⟩ 1 1
        [(10, "a"), (10, "b")]).fst.stocks 1 1 = some ⟨1, 1, 10, 20, 10, 0⟩ ∧
    ¬ ((10 : Int) + 10 ≤ 10) := by
  decide

/-- C4: the spec claims a successful reserve increases `reserved` by
qty with `quantity` unchanged, recomputes `available`, bumps
`version`, and creates a matching RESERVE transaction atomically.  The
transaction, the `reserved` increment and the unchanged `quantity` are
as claimed, but the persisted row keeps the stale `available = 10`
(claim: 7) and `version = 0` (claim: 1), because the save uses
`update_fields=['reserved_quantity', 'updated_at']`. -/
theorem reserve_effects_missing_available_and_version :
    reserve_stock ⟨[⟨1, 1, 10, 0, 10, 0⟩], [], []⟩ 1 1 3 "ord-A" =
      (⟨[⟨1, 1, 10, 3, 10, 0⟩], [⟨1, 1, TxnType.RESERVE, 3, "ord-A"⟩], []⟩, true) ∧
    ¬ ((⟨1, 1, 10, 3, 10, 0⟩ : Stock).available_quantity =
        (⟨1, 1, 10, 3, 10, 0⟩ : Stock).quantity -
          (⟨1, 1, 10, 3, 10, 0⟩ : Stock).reserved_quantity) ∧
    ¬ ((⟨1, 1, 10, 3, 10, 0⟩ : Stock).version = 0 + 1) := by
  decide

/-- C5: a `reserve_stock` call on a row whose stored
`available_quantity` is strictly below the requested quantity returns
`False` (Insufficient) and leaves the whole state — stock rows,
transaction log and cache — exactly unchanged (services.py lines
104-106 return before any mutation). -/
theorem reserve_insufficient_leaves_state_unchanged (db : InventoryDB)
    (product_id warehouse_id : Nat) (quantity : Int) (order_id : String) (s : Stock)
    (hfind : findStock db.stocks product_id warehouse_id = some s)
    (hlt : s.available_quantity < quantity) :
    reserve_stock db product_id warehouse_id quantity order_id = (db, false) := by
  simp only [reserve_stock, hfind]
  rw [if_pos hlt]

/-- Witness for C5 at the concrete row `(quantity 5, reserved 2,
available 3)` and a request of 4. -/
theorem reserve_insufficient_leaves_state_unchanged_witness :
    reserve_stock ⟨[⟨1, 1, 5, 2, 3, 7⟩], [], []⟩ 1 1 4 "w5" =
      (⟨[⟨1, 1, 5, 2, 3, 7⟩], [], []⟩, false) :=
  reserve_insufficient_leaves_state_unchanged _ 1 1 4 "w5" ⟨1, 1, 5, 2, 3, 7⟩
    (by decide) (by decide)

/-- C6 counterexample: the claim says every `reserve_stock` or
`release_stock` call with qty ≤ 0 is rejected immediately with no side
effects.  Neither service validates the sign: with qty = −5 on the row
`(10, 3, 7)`, `reserve_stock` returns success, drives
`reserved_quantity` to −2 and appends a RESERVE transaction — the
availability guard `available < qty` cannot fire for qty ≤ 0 on a
nonnegative row. -/
theorem nonpositive_reserve_accepted_cex :
    reserve_stock ⟨[⟨1, 1, 10, 3, 7, 0⟩], [], []⟩ 1 1 (-5) "neg" =
      (⟨[⟨1, 1, 10, -2, 7, 0⟩], [⟨1, 1, TxnType.RESERVE, -5, "neg"⟩], []⟩, true) ∧
    ¬ ((0 : Int) < -5) := by
  decide

/-- C6 amended: `reserve_stock` and `release_stock` perform no
positivity validation on qty.  A call with qty ≤ 0 on an existing row
with nonnegative stored quantities is accepted: it returns success,
shifts `reserved_quantity` by qty (reserve) respectively −qty
(release), and appends a RESERVE respectively RELEASE transaction. -/
theorem nonpositive_qty_not_validated (db : InventoryDB)
    (product_id warehouse_id : Nat) (quantity : Int) (order_id : String) (s : Stock)
    (hfind : findStock db.stocks product_id warehouse_id = some s)
    (hq : quantity ≤ 0) (ha : 0 ≤ s.available_quantity) (hr : 0 ≤ s.reserved_quantity) :
    reserve_stock db product_id warehouse_id quantity order_id =
      ({ stocks := replaceStock db.stocks product_id warehouse_id
            { s with reserved_quantity := s.reserved_quantity + quantity },
         txns := db.txns ++ [⟨product_id, warehouse_id, TxnType.RESERVE, quantity, order_id⟩],
         cache := cacheDelete db.cache (cacheKeySpecific product_id warehouse_id) }, true) ∧
    release_stock db product_id warehouse_id quantity order_id =
      some ({ stocks := replaceStock db.stocks product_id warehouse_id
                { s with reserved_quantity := s.reserved_quantity - quantity },
              txns := db.txns ++ [⟨product_id, warehouse_id, TxnType.RELEASE, quantity, order_id⟩],
              cache := cacheDelete db.cache (cacheKeySpecific product_id warehouse_id) },
            true) := by
  have h1 : ¬ s.available_quantity < quantity := not_lt.mpr (hq.trans ha)
  have h2 : ¬ s.reserved_quantity < quantity := not_lt.mpr (hq.trans hr)
  constructor
  · simp only [reserve_stock, hfind]
    rw [if_neg h1]
    rfl
  · simp only [release_stock, hfind]
    rw [if_neg h2]
    rfl

/-- Witness for C6's amended statement: qty = −5 on the row
`(10, 3, 7)` is accepted by both operations. -/
theorem nonpositive_qty_not_validated_witness :
    reserve_stock ⟨[⟨1, 1, 10, 3, 7, 0⟩], [], []⟩ 1 1 (-5) "w6" =
      (⟨[⟨1, 1, 10, -2, 7, 0⟩], [⟨1, 1, TxnType.RESERVE, -5, "w6"⟩], []⟩, true) ∧
    release_stock ⟨[⟨1, 1, 10, 3, 7, 0⟩], [], []⟩ 1 1 (-5) "w6" =
      some (⟨[⟨1, 1, 10, 8, 7, 0⟩], [⟨1, 1, TxnType.RELEASE, -5, "w6"⟩], []⟩, true) :=
  nonpositive_qty_not_validated ⟨[⟨1, 1, 10, 3, 7, 0⟩], [], []⟩ 1 1 (-5) "w6"
    ⟨1, 1, 10, 3, 7, 0⟩ (by decide) (by decide) (by decide) (by decide)

/-- The per-round grant test, unfolded to the spec's formulas:
quorum `⌊N/2⌋ + 1` and validity `ttl − elapsed − (ttl·0.01 + 2 ms)`. -/
theorem roundGranted_iff (cfg : LockConfig) (r : LockRound) :
    roundGranted cfg r = true ↔
      (cfg.servers / 2 + 1 ≤ countAcquired r.responses ∧
        0 < cfg.ttl - r.elapsed - (cfg.ttl * (1 / 100) + 1 / 500)) := by
  simp [roundGranted, quorum, validityTime, clockDrift, Bool.and_eq_true,
    decide_eq_true_eq]

/-- The retry loop grants exactly when some supplied round passes the
per-round grant test. -/
theorem acquireRun_fst_iff (cfg : LockConfig) (l : List LockRound) :
    (acquireRun cfg l).fst = true ↔ ∃ r ∈ l, roundGranted cfg r = true := by
  induction l with
  | nil => simp [acquireRun]
  | cons r rest ih =>
    rcases Bool.eq_false_or_eq_true (roundGranted cfg r) with hg | hg
    · simp [acquireRun, hg]
    · simp [acquireRun, hg]
      exact ih

/-- Every failed attempt releases exactly the servers it acquired and
sleeps either nothing (final attempt) or the configured constant
`retry_delay`; a granting attempt releases nothing and sleeps
nothing. -/
theorem acquireRun_logs (cfg : LockConfig) (l : List LockRound) :
    ∀ lg ∈ (acquireRun cfg l).snd,
      (lg.granted = false → lg.released = lg.acquired ∧
        (lg.slept = none ∨ lg.slept = some cfg.retry_delay)) ∧
      (lg.granted = true → lg.released = [] ∧ lg.slept = none) := by
  induction l with
  | nil =>
    intro lg h
    simp [acquireRun] at h
  | cons r rest ih =>
    intro lg h
    rcases Bool.eq_false_or_eq_true (roundGranted cfg r) with hg | hg
    · simp [acquireRun, hg] at h
      subst h
      exact ⟨fun hgr => by simp at hgr, fun _ => ⟨rfl, rfl⟩⟩
    · simp [acquireRun, hg] at h
      rcases h with h | h
      · subst h
        refine ⟨fun _ => ⟨rfl, ?_⟩, fun hgr => by simp at hgr⟩
        cases rest with
        | nil =>
          left
          simp
        | cons a as =>
          right
          simp
      · exact ih lg h

/-- The loop makes at most one attempt per supplied round. -/
theorem acquireRun_length_le (cfg : LockConfig) (l : List LockRound) :
    (acquireRun cfg l).snd.length ≤ l.length := by
  induction l with
  | nil => simp [acquireRun]
  | cons r rest ih =>
    rcases Bool.eq_false_or_eq_true (roundGranted cfg r) with hg | hg
    · simp [acquireRun, hg]
    · simp [acquireRun, hg]
      omega

/-- C7 counterexample: the claim says the failed rounds are retried
"with randomized back-off".  The code sleeps the constant configured
`retry_delay` between rounds (`time.sleep(self.retry_delay)`,
distributed_lock.py line 139) and draws no randomness at all: with
`retry_delay = 1` and three all-failing rounds, the recorded back-offs
are exactly `[some 1, some 1, none]` — the same fixed delay before
every retry, none after the final attempt. -/
theorem acquire_backoff_constant_cex :
    ((acquire ⟨30, 3, 1, 5⟩
        [⟨[false, false, false, false, false], 0⟩,
         ⟨[false, false, false, false, false], 0⟩,
         ⟨[false, false, false, false, false], 0⟩]).snd.map (fun lg => lg.slept) =
      [some 1, some 1, none]) ∧
    (⟨30, 3, 1, 5⟩ : LockConfig).retry_delay = 1 ∧
    (acquire ⟨30, 3, 1, 5⟩
        [⟨[false, false, false, false, false], 0⟩,
         ⟨[false, false, false, false, false], 0⟩,
         ⟨[false, false, false, false, false], 0⟩]).fst = false := by
  decide

/-- C7 amended: with one environment round per configured attempt,
`acquire` grants the lock iff some round within `retry_times` has at
least `⌊N/2⌋ + 1` per-server successes and positive validity
`ttl − elapsed − (ttl·0.01 + 0.002)`; every failed round releases the
lock on exactly the servers it acquired and then sleeps the constant
`retry_delay` (nothing after the last attempt) — fixed, not randomized,
back-off; a granting round releases nothing; and at most `retry_times`
attempts are made. -/
theorem acquire_grant_iff_quorum_and_validity (cfg : LockConfig) (env : List LockRound)
    (henv : env.length = cfg.retry_times) :
    ((acquire cfg env).fst = true ↔
      ∃ r ∈ env, cfg.servers / 2 + 1 ≤ countAcquired r.responses ∧
        0 < cfg.ttl - r.elapsed - (cfg.ttl * (1 / 100) + 1 / 500)) ∧
    (∀ lg ∈ (acquire cfg env).snd, lg.granted = false →
      lg.released = lg.acquired ∧ (lg.slept = none ∨ lg.slept = some cfg.retry_delay)) ∧
    (∀ lg ∈ (acquire cfg env).snd, lg.granted = true →
      lg.released = [] ∧ lg.slept = none) ∧
    (acquire cfg env).snd.length ≤ cfg.retry_times := by
  have htake : env.take cfg.retry_times = env := by
    rw [← henv]
    exact List.take_length env
  have hacq : acquire cfg env = acquireRun cfg env := by
    unfold acquire
    rw [htake]
  rw [hacq]
  refine ⟨?_, ?_, ?_, ?_⟩
  · rw [acquireRun_fst_iff]
    simp only [roundGranted_iff]
  · intro lg h
    exact (acquireRun_logs cfg env lg h).1
  · intro lg h
    exact (acquireRun_logs cfg env lg h).2
  · rw [← henv]
    exact acquireRun_length_le cfg env

/-- Witness for C7's amended statement at a 5-server configuration with
a single attempt. -/
theorem acquire_grant_iff_quorum_and_validity_witness :
    ((acquire ⟨30, 1, 1, 5⟩ [⟨[false, false, false, false, false], 0⟩]).fst = true ↔
      ∃ r ∈ [(⟨[false, false, false, false, false], 0⟩ : LockRound)],
        5 / 2 + 1 ≤ countAcquired r.responses ∧
        0 < (30 : ℚ) - r.elapsed - ((30 : ℚ) * (1 / 100) + 1 / 500)) ∧
    (∀ lg ∈ (acquire ⟨30, 1, 1, 5⟩ [⟨[false, false, false, false, false], 0⟩]).snd,
      lg.granted = false →
        lg.released = lg.acquired ∧ (lg.slept = none ∨ lg.slept = some 1)) ∧
    (∀ lg ∈ (acquire ⟨30, 1, 1, 5⟩ [⟨[false, false, false, false, false], 0⟩]).snd,
      lg.granted = true → lg.released = [] ∧ lg.slept = none) ∧
    (acquire ⟨30, 1, 1, 5⟩ [⟨[false, false, false, false, false], 0⟩]).snd.length ≤ 1 :=
  acquire_grant_iff_quorum_and_validity ⟨30, 1, 1, 5⟩
    [⟨[false, false, false, false, false], 0⟩] (by decide)

/-- C8 counterexample: the claim says every successful mutation deletes
both the warehouse-specific key `stock:{pid}:{wid}` and the aggregate
key `stock:{pid}:all` before returning.  All three mutators delete only
the specific key (services.py lines 122-124, 176-177, 231-232): after a
successful reserve with both keys cached, the aggregate entry for
product 1 is still in the cache. -/
theorem aggregate_cache_key_not_invalidated_cex :
    (reserve_stock ⟨[⟨1, 1, 10, 0, 10, 0⟩], [],
        [⟨"stock:1:1", ⟨1, some 1, 10, 0, 10, []⟩, 60⟩,
         ⟨"stock:1:all", ⟨1, none, 10, 0, 10, []⟩, 60⟩]⟩ 1 1 3 "o").snd = true ∧
    (reserve_stock ⟨[⟨1, 1, 10, 0, 10, 0⟩], [],
        [⟨"stock:1:1", ⟨1, some 1, 10, 0, 10, []⟩, 60⟩,
         ⟨"stock:1:all", ⟨1, none, 10, 0, 10, []⟩, 60⟩]⟩ 1 1 3 "o").fst.cache =
      [⟨"stock:1:all", ⟨1, none, 10, 0, 10, []⟩, 60⟩] ∧
    cacheKeyAggregate 1 = "stock:1:all" := by
  decide

/-- C8 amended: after every successful mutation (reserve, release,
adjust) and before control returns, exactly the warehouse-specific key
`stock:{pid}:{wid}` is deleted from the cache; the per-product
aggregate key `stock:{pid}:all` is not invalidated and is left to
expire by TTL. -/
theorem mutation_deletes_only_specific_cache_key (db : InventoryDB)
    (product_id warehouse_id : Nat) (quantity : Int) (order_id : String)
    (ttype : TxnType) (reference_id : String) :
    ((reserve_stock db product_id warehouse_id quantity order_id).snd = true →
      (reserve_stock db product_id warehouse_id quantity order_id).fst.cache =
        cacheDelete db.cache (cacheKeySpecific product_id warehouse_id)) ∧
    (∀ out, release_stock db product_id warehouse_id quantity order_id = some out →
      out.snd = true →
      out.fst.cache = cacheDelete db.cache (cacheKeySpecific product_id warehouse_id)) ∧
    ((update_stock db product_id warehouse_id quantity ttype reference_id).snd = true →
      (update_stock db product_id warehouse_id quantity ttype reference_id).fst.cache =
        cacheDelete db.cache (cacheKeySpecific product_id warehouse_id)) := by
  refine ⟨?_, ?_, ?_⟩
  · simp only [reserve_stock]
    split
    · intro h
      simp at h
    · split
      · intro h
        simp at h
      · intro _
        rfl
  · intro out hout htrue
    simp only [release_stock] at hout
    split at hout
    · exact Option.noConfusion hout
    · split at hout
      · injection hout with h
        subst h
        simp at htrue
      · injection hout with h
        subst h
        rfl
  · simp only [update_stock, updateStockApply]
    split
    · split
      · intro h
        simp at h
      · intro _
        rfl
    · split
      · intro h
        simp at h
      · intro _
        rfl

/-- Witness for C8's amended statement: a successful reserve leaves the
cache equal to the old cache minus the specific key. -/
theorem mutation_deletes_only_specific_cache_key_witness :
    (reserve_stock ⟨[⟨1, 1, 10, 0, 10, 0⟩], [],
        [⟨"stock:1:1", ⟨1, some 1, 10, 0, 10, []⟩, 60⟩,
         ⟨"stock:1:all", ⟨1, none, 10, 0, 10, []⟩, 60⟩]⟩ 1 1 3 "w8").fst.cache =
      cacheDelete
        [⟨"stock:1:1", ⟨1, some 1, 10, 0, 10, []⟩, 60⟩,
         ⟨"stock:1:all", ⟨1, none, 10, 0, 10, []⟩, 60⟩]
        (cacheKeySpecific 1 1) :=
  (mutation_deletes_only_specific_cache_key
      ⟨[⟨1, 1, 10, 0, 10, 0⟩], [],
        [⟨"stock:1:1", ⟨1, some 1, 10, 0, 10, []⟩, 60⟩,
         ⟨"stock:1:all", ⟨1, none, 10, 0, 10, []⟩, 60⟩]⟩
      1 1 3 "w8" TxnType.ADJUST "r").1 (by decide)

/-- The reconciler loop counts exactly the discrepant rows in its
scope. -/
theorem reconcileLoop_count (l : List Stock) :
    (reconcileLoop l).fst = (l.filter stockDiscrepant).length := by
  induction l with
  | nil => rfl
  | cons t rest ih =>
    rcases Bool.eq_false_or_eq_true (stockDiscrepant t) with hd | hd
    · simp [reconcileLoop, List.filter_cons, hd, ih]
    · simp [reconcileLoop, List.filter_cons, hd, ih]

/-- The reconciler's row map preserves identity, quantities and
version: only `available_quantity` is written. -/
theorem reconcileFix_map_proj (wid : Option Nat) (l : List Stock) :
    (l.map (fun t => if inScope wid t && stockDiscrepant t then reconcileRow t else t)).map
        (fun x => (x.product_id, x.warehouse_id, x.quantity, x.reserved_quantity, x.version)) =
      l.map (fun x => (x.product_id, x.warehouse_id, x.quantity, x.reserved_quantity,
        x.version)) := by
  induction l with
  | nil => rfl
  | cons t rest ih =>
    simp only [List.map_cons, ih]
    congr 1
    rcases Bool.eq_false_or_eq_true (inScope wid t && stockDiscrepant t) with hc | hc
    · rw [if_pos hc]
      rfl
    · rw [if_neg (by simp [hc])]

/-- C9 counterexample: the claim says a discrepant row is repaired
through the reservation engine so that a SYNC StockTransaction records
the correction.  The code repairs by writing `available_quantity`
directly with `save(update_fields=['available_quantity'])` (tasks.py
lines 356-358) and appends nothing: on the drifted row
`(quantity 5, reserved 2, available 5)` the row is corrected to
available 3 but the transaction log stays empty. -/
theorem reconcile_no_sync_transaction_cex :
    reconcile_inventory ⟨[⟨2, 2, 5, 2, 5, 0⟩], [], []⟩ none =
      (⟨[⟨2, 2, 5, 2, 3, 0⟩], [], []⟩, ⟨1, [⟨2, 2, 5, 3, 2⟩], 1⟩) ∧
    (reconcile_inventory ⟨[⟨2, 2, 5, 2, 5, 0⟩], [], []⟩ none).fst.txns = [] := by
  decide

/-- C9 amended: the reconciler repairs every discrepant row in scope by
writing `available_quantity := quantity − reserved` directly — no
StockTransaction (SYNC or otherwise) is appended, no version bump is
persisted, and the cache is untouched — and its result reports the
rows checked, the discrepancy count and the discrepancy details. -/
theorem reconcile_direct_write_characterization (db : InventoryDB) (wid : Option Nat)
    (s : Stock) (hs : s ∈ (reconcile_inventory db wid).fst.stocks)
    (hin : inScope wid s = true) :
    s.available_quantity = s.quantity - s.reserved_quantity ∧
    (reconcile_inventory db wid).fst.txns = db.txns ∧
    (reconcile_inventory db wid).fst.cache = db.cache ∧
    (reconcile_inventory db wid).fst.stocks.map
        (fun x => (x.product_id, x.warehouse_id, x.quantity, x.reserved_quantity, x.version)) =
      db.stocks.map
        (fun x => (x.product_id, x.warehouse_id, x.quantity, x.reserved_quantity,
          x.version)) ∧
    (reconcile_inventory db wid).snd.total_checked =
      (db.stocks.filter (inScope wid)).length ∧
    (reconcile_inventory db wid).snd.reconciled_count =
      ((db.stocks.filter (inScope wid)).filter stockDiscrepant).length := by
  refine ⟨?_, rfl, rfl, reconcileFix_map_proj wid db.stocks, rfl, reconcileLoop_count _⟩
  have hs' : s ∈ db.stocks.map
      (fun t => if inScope wid t && stockDiscrepant t then reconcileRow t else t) := hs
  rw [List.mem_map] at hs'
  obtain ⟨t, ht, heq⟩ := hs'
  rcases Bool.eq_false_or_eq_true (inScope wid t && stockDiscrepant t) with hc | hc
  · rw [if_pos hc] at heq
    subst heq
    rfl
  · rw [if_neg (by simp [hc])] at heq
    subst heq
    have hd : stockDiscrepant t = false := by
      rcases Bool.eq_false_or_eq_true (stockDiscrepant t) with h | h
      · rw [hin, h] at hc
        simp at hc
      · exact h
    simpa [stockDiscrepant] using hd

/-- Witness for C9's amended statement on the drifted row
`(quantity 5, reserved 2, available 5)`. -/
theorem reconcile_direct_write_characterization_witness :
    ((⟨2, 2, 5, 2, 3, 0⟩ : Stock).available_quantity =
      (⟨2, 2, 5, 2, 3, 0⟩ : Stock).quantity -
        (⟨2, 2, 5, 2, 3, 0⟩ : Stock).reserved_quantity) ∧
    (reconcile_inventory ⟨[⟨2, 2, 5, 2, 5, 0⟩], [], []⟩ none).fst.txns =
      (⟨[⟨2, 2, 5, 2, 5, 0⟩], [], []⟩ : InventoryDB).txns ∧
    (reconcile_inventory ⟨[⟨2, 2, 5, 2, 5, 0⟩], [], []⟩ none).fst.cache =
      (⟨[⟨2, 2, 5, 2, 5, 0⟩], [], []⟩ : InventoryDB).cache ∧
    (reconcile_inventory ⟨[⟨2, 2, 5, 2, 5, 0⟩], [], []⟩ none).fst.stocks.map
        (fun x => (x.product_id, x.warehouse_id, x.quantity, x.reserved_quantity, x.version)) =
      (⟨[⟨2, 2, 5, 2, 5, 0⟩], [], []⟩ : InventoryDB).stocks.map
        (fun x => (x.product_id, x.warehouse_id, x.quantity, x.reserved_quantity,
          x.version)) ∧
    (reconcile_inventory ⟨[⟨2, 2, 5, 2, 5, 0⟩], [], []⟩ none).snd.total_checked =
      ((⟨[⟨2, 2, 5, 2, 5, 0⟩], [], []⟩ : InventoryDB).stocks.filter (inScope none)).length ∧
    (reconcile_inventory ⟨[⟨2, 2, 5, 2, 5, 0⟩], [], []⟩ none).snd.reconciled_count =
      (((⟨[⟨2, 2, 5, 2, 5, 0⟩], [], []⟩ : InventoryDB).stocks.filter
          (inScope none)).filter stockDiscrepant).length :=
  reconcile_direct_write_characterization ⟨[⟨2, 2, 5, 2, 5, 0⟩], [], []⟩ none
    ⟨2, 2, 5, 2, 3, 0⟩ (by decide) (by decide)

/-- C10: when the requested `(product, warehouse)` row does not exist,
`get_available_stock` raises nothing and returns the zero snapshot
`{available 0, reserved 0, total 0}` (services.py lines 52-59), cached
with `cache.set(cache_key, result, timeout=60)` — the same key
`stock:{pid}:{wid}` and the same 60-second TTL used for an existing
row's snapshot (second conjunct). -/
theorem get_available_missing_row_zero_snapshot (db : InventoryDB) (pid w : Nat)
    (hw : w ≠ 0)
    (hmiss : cacheGet db.cache (cacheKeySpecific pid w) = none) :
    (findStock db.stocks pid w = none →
      get_available_stock db pid (some w) =
        (⟨db.stocks, db.txns,
            cacheSet db.cache (cacheKeySpecific pid w) ⟨pid, some w, 0, 0, 0, []⟩ 60⟩,
         ⟨pid, some w, 0, 0, 0, []⟩)) ∧
    (∀ s, findStock db.stocks pid w = some s →
      get_available_stock db pid (some w) =
        (⟨db.stocks, db.txns,
            cacheSet db.cache (cacheKeySpecific pid w)
              ⟨pid, some w, s.available_quantity, s.reserved_quantity, s.quantity, []⟩ 60⟩,
         ⟨pid, some w, s.available_quantity, s.reserved_quantity, s.quantity, []⟩)) := by
  constructor
  · intro hrow
    simp [get_available_stock, hw, hmiss, hrow]
  · intro s hrow
    simp [get_available_stock, hw, hmiss, hrow]

/-- Witness for C10: an empty database with an empty cache yields the
zero snapshot, cached under `stock:1:2` with TTL 60. -/
theorem get_available_missing_row_zero_snapshot_witness :
    (findStock ([] : List Stock) 1 2 = none →
      get_available_stock ⟨[], [], []⟩ 1 (some 2) =
        (⟨[], [], cacheSet [] (cacheKeySpecific 1 2) ⟨1, some 2, 0, 0, 0, []⟩ 60⟩,
         ⟨1, some 2, 0, 0, 0, []⟩)) ∧
    (∀ s, findStock ([] : List Stock) 1 2 = some s →
      get_available_stock ⟨[], [], []⟩ 1 (some 2) =
        (⟨[], [], cacheSet [] (cacheKeySpecific 1 2)
            ⟨1, some 2, s.available_quantity, s.reserved_quantity, s.quantity, []⟩ 60⟩,
         ⟨1, some 2, s.available_quantity, s.reserved_quantity, s.quantity, []⟩)) :=
  get_available_missing_row_zero_snapshot ⟨[], [], []⟩ 1 2 (by decide) (by decide)

end InventorySync
